import Mathlib

/-!
Verification of the AI_Drug_Discovery training-dispatch core.

Shallow embedding of:
  - src/utils/signature.py            (compute_training_signature)
  - src/utils/training_types.py       (TrainingConfig construction / __post_init__)
  - src/utils/training_orchestrator.py (TrainingOrchestrator: run_exists_with_tag,
      check_if_already_trained, run_training, train_multiple_configs)
  - src/train_dispatch_pure.py        (compute_composite_run_key)

Python strings are modelled as Lean String values (sliced by code points, as
Python slices do); bytes as List Nat (each < 256); the MLflow tracking store
as an explicit registry state threaded through the orchestrator functions;
Python exceptions as Except values.
-/

namespace DrugDispatch

/-! ## SHA-256 (hashlib.sha256), executable -/

def w32 (n : Nat) : Nat := n % 4294967296

def rotr32 (x n : Nat) : Nat := w32 (x / 2 ^ n + x % 2 ^ n * 2 ^ (32 - n))

def xor32 (a b : Nat) : Nat := a ^^^ b

def chooseF (e f g : Nat) : Nat := xor32 (e &&& f) ((e ^^^ 4294967295) &&& g)

def majorityF (a b c : Nat) : Nat := xor32 (xor32 (a &&& b) (a &&& c)) (b &&& c)

def sumA32 (x : Nat) : Nat := xor32 (xor32 (rotr32 x 2) (rotr32 x 13)) (rotr32 x 22)

def sumE32 (x : Nat) : Nat := xor32 (xor32 (rotr32 x 6) (rotr32 x 11)) (rotr32 x 25)

def sigLow32 (x : Nat) : Nat := xor32 (xor32 (rotr32 x 7) (rotr32 x 18)) (x / 2 ^ 3)

def sigHigh32 (x : Nat) : Nat := xor32 (xor32 (rotr32 x 17) (rotr32 x 19)) (x / 2 ^ 10)

def shaK : List Nat :=
  [1116352408, 1899447441, 3049323471, 3921009573,
   961987163, 1508970993, 2453635748, 2870763221,
   3624381080, 310598401, 607225278, 1426881987,
   1925078388, 2162078206, 2614888103, 3248222580,
   3835390401, 4022224774, 264347078, 604807628,
   770255983, 1249150122, 1555081692, 1996064986,
   2554220882, 2821834349, 2952996808, 3210313671,
   3336571891, 3584528711, 113926993, 338241895,
   666307205, 773529912, 1294757372, 1396182291,
   1695183700, 1986661051, 2177026350, 2456956037,
   2730485921, 2820302411, 3259730800, 3345764771,
   3516065817, 3600352804, 4094571909, 275423344,
   430227734, 506948616, 659060556, 883997877,
   958139571, 1322822218, 1537002063, 1747873779,
   1955562222, 2024104815, 2227730452, 2361852424,
   2428436474, 2756734187, 3204031479, 3329325298]

structure Sha8 where
  v0 : Nat
  v1 : Nat
  v2 : Nat
  v3 : Nat
  v4 : Nat
  v5 : Nat
  v6 : Nat
  v7 : Nat
deriving DecidableEq

def shaH0 : Sha8 :=
  ⟨1779033703, 3144134277, 1013904242, 2773480762,
   1359893119, 2600822924, 528734635, 1541459225⟩

def scheduleStep (ws : List Nat) : List Nat :=
  let i := ws.length
  ws ++ [w32 (sigHigh32 (ws.getD (i - 2) 0) + ws.getD (i - 7) 0 +
              sigLow32 (ws.getD (i - 15) 0) + ws.getD (i - 16) 0)]

def schedule : List Nat → Nat → List Nat
  | ws, 0 => ws
  | ws, n + 1 => schedule (scheduleStep ws) n

def shaRound (st : Sha8) (kw : Nat) : Sha8 :=
  let t1 := st.v7 + sumE32 st.v4 + chooseF st.v4 st.v5 st.v6 + kw
  let t2 := sumA32 st.v0 + majorityF st.v0 st.v1 st.v2
  ⟨w32 (t1 + t2), st.v0, st.v1, st.v2, w32 (st.v3 + t1), st.v4, st.v5, st.v6⟩

def shaCompress (h : Sha8) (block : List Nat) : Sha8 :=
  let ws := schedule block 48
  let st := (List.zipWith (fun k w => k + w) shaK ws).foldl shaRound h
  ⟨w32 (h.v0 + st.v0), w32 (h.v1 + st.v1), w32 (h.v2 + st.v2), w32 (h.v3 + st.v3),
   w32 (h.v4 + st.v4), w32 (h.v5 + st.v5), w32 (h.v6 + st.v6), w32 (h.v7 + st.v7)⟩

def sha256pad (msg : List Nat) : List Nat :=
  let L := msg.length
  let k := (120 - (L + 1) % 64) % 64
  msg ++ 128 :: List.replicate k 0 ++
    (List.range 8).map (fun i => 8 * L / 2 ^ (8 * (7 - i)) % 256)

def bytesToWords : List Nat → List Nat
  | b0 :: b1 :: b2 :: b3 :: rest =>
    (b0 * 16777216 + b1 * 65536 + b2 * 256 + b3) :: bytesToWords rest
  | _ => []

def toBlocksF : Nat → List Nat → List (List Nat)
  | 0, _ => []
  | _, [] => []
  | fuel + 1, l => l.take 64 :: toBlocksF fuel (l.drop 64)

def toBlocks (l : List Nat) : List (List Nat) := toBlocksF l.length l

def sha256words (msg : List Nat) : Sha8 :=
  (toBlocks (sha256pad msg)).foldl (fun h b => shaCompress h (bytesToWords b)) shaH0

def hexDigit (n : Nat) : Char := Char.ofNat (if n < 10 then 48 + n else 87 + n)

def hex8 (w : Nat) : List Char := (List.range 8).map (fun i => hexDigit (w / 16 ^ (7 - i) % 16))

def sha256hexChars (msg : List Nat) : List Char :=
  let d := sha256words msg
  hex8 d.v0 ++ hex8 d.v1 ++ hex8 d.v2 ++ hex8 d.v3 ++
  hex8 d.v4 ++ hex8 d.v5 ++ hex8 d.v6 ++ hex8 d.v7

def sha256hex (msg : List Nat) : String := String.mk (sha256hexChars msg)

/-- Sanity: SHA-256 of the empty message matches the published test vector. -/
theorem sha256hex_empty :
    sha256hex [] = "e3b0c44298fc1c149afbf4c8996fb92427ae41e4649b934ca495991b7852b855" := by
  decide

/-! ## Python strings and values -/

/-- UTF-8 encoding of one code point (str.encode). -/
def utf8Bytes (c : Char) : List Nat :=
  let n := c.toNat
  if n < 128 then [n]
  else if n < 2048 then [192 + n / 64, 128 + n % 64]
  else if n < 65536 then [224 + n / 4096, 128 + n / 64 % 64, 128 + n % 64]
  else [240 + n / 262144, 128 + n / 4096 % 64, 128 + n / 64 % 64, 128 + n % 64]

/-- UTF-8 encoding of a string (str.encode). -/
def strBytes (s : String) : List Nat := s.toList.flatMap utf8Bytes

/-- Sanity: SHA-256 of "abc" matches the published test vector. -/
theorem sha256hex_abc :
    sha256hex (strBytes "abc") =
      "ba7816bf8f01cfea414140de5dae2223b00361a396177a9cb410ff61f20015ad" := by
  decide

set_option maxRecDepth 4000 in
/-- Sanity: a two-block SHA-256 test vector. -/
theorem sha256hex_twoblock :
    sha256hex (strBytes "abcdbcdecdefdefgefghfghighijhijkijkljklmklmnlmnomnopnopq") =
      "248d6a61d20638b8e5c026930c3e6039a33ce45964ff2167f6ecedd419db06c1" := by
  decide

/-- Python slicing s[:n] (by code points). -/
def strTake (s : String) (n : Nat) : String := String.mk (s.toList.take n)

/-- A YAML/JSON scalar or string-list value, as found in a training config. -/
inductive JValue where
  | s (v : String)
  | n (v : Int)
  | b (v : Bool)
  | null
  | arr (vs : List String)
deriving DecidableEq

def quoteChar : Char := Char.ofNat 34

def squoteChar : Char := Char.ofNat 39

def lbraceChar : Char := Char.ofNat 123

def rbraceChar : Char := Char.ofNat 125

def backslashChar : Char := Char.ofNat 92

/-- json.dumps escaping for string content (quote and backslash). -/
def jsonEscape (cs : List Char) : List Char :=
  cs.flatMap fun c =>
    if c = quoteChar then [backslashChar, quoteChar]
    else if c = backslashChar then [backslashChar, backslashChar]
    else [c]

def joinSep (sep : List Char) : List (List Char) → List Char
  | [] => []
  | [x] => x
  | x :: y :: rest => x ++ sep ++ joinSep sep (y :: rest)

/-- json.dumps of a string (escaped, quoted). -/
def dumpsStr (v : String) : List Char := quoteChar :: jsonEscape v.toList ++ [quoteChar]

/-- json.dumps of a scalar or string-list value (default separators). -/
def JValue.dumps : JValue → List Char
  | .s v => dumpsStr v
  | .n v => (toString v).toList
  | .b v => if v then "true".toList else "false".toList
  | .null => "null".toList
  | .arr vs => '[' :: joinSep (", ".toList) (vs.map dumpsStr) ++ [']']

/-- Python repr of a string (single-quoted, escaped). -/
def pyReprStr (v : String) : List Char :=
  squoteChar ::
    (v.toList.flatMap fun c =>
      if c = squoteChar then [backslashChar, squoteChar]
      else if c = backslashChar then [backslashChar, backslashChar]
      else [c]) ++ [squoteChar]

/-- Python repr of a scalar or string-list value (as used by str(sorted(d.items()))). -/
def JValue.pyRepr : JValue → List Char
  | .s v => pyReprStr v
  | .n v => (toString v).toList
  | .b v => if v then "True".toList else "False".toList
  | .null => "None".toList
  | .arr vs => '[' :: joinSep (", ".toList) (vs.map pyReprStr) ++ [']']

/-- Python str() of a value (str is identity on strings, repr elsewhere). -/
def JValue.pyStr : JValue → String
  | .s v => v
  | v => String.mk v.pyRepr

/-! ## Canonical key ordering (json.dumps sort_keys / sorted(d.items())) -/

/-- Code-point lexicographic string comparison, as Python compares str. -/
def lexLe : List Char → List Char → Bool
  | [], _ => true
  | _ :: _, [] => false
  | a :: as, b :: bs =>
    if a.toNat < b.toNat then true
    else if b.toNat < a.toNat then false
    else lexLe as bs

def keyLe (a b : String × JValue) : Prop := lexLe a.1.toList b.1.toList = true

instance : DecidableRel keyLe := fun a b =>
  inferInstanceAs (Decidable (lexLe a.1.toList b.1.toList = true))

/-- Sort an association list by key, as sort_keys / sorted(d.items()) do. -/
def canonSort (l : List (String × JValue)) : List (String × JValue) :=
  List.insertionSort keyLe l

/-- json.dumps(d, sort_keys=True) for a flat string-keyed mapping. -/
def dumpsDict (d : List (String × JValue)) : List Char :=
  lbraceChar ::
    joinSep (", ".toList)
      ((canonSort d).map fun kv =>
        quoteChar :: jsonEscape kv.1.toList ++ quoteChar :: ':' :: ' ' :: kv.2.dumps)
    ++ [rbraceChar]

/-- str(sorted(d.items())): Python repr of the key-sorted item list. -/
def pyReprItems (d : List (String × JValue)) : List Char :=
  '[' ::
    joinSep (", ".toList)
      ((canonSort d).map fun kv =>
        '(' :: pyReprStr kv.1 ++ ',' :: ' ' :: kv.2.pyRepr ++ [')'])
    ++ [']']

/-! ## Errors and the file system -/

/-- A Python exception escaping the per-config training pipeline:
either an OSError from open() on a signature file, or an exception
raised by the dynamically loaded training function. -/
inductive TError where
  | fileRead (path : String)
  | trainFail (msg : String)
deriving DecidableEq

/-- The readable file system: path to byte content; absent or unreadable
paths are simply missing. -/
def FS : Type := List (String × List Nat)

def fsRead (fs : FS) (p : String) : Option (List Nat) := List.lookup p fs

/-! ## src/utils/signature.py -/

/-- The file-read loop of compute_training_signature: open(path, "rb") and
read each listed file in order; the first missing or unreadable path
raises, and nothing is silently skipped. -/
def readFiles (fs : FS) : List String → Except TError (List (List Nat))
  | [] => Except.ok []
  | p :: rest =>
    match fsRead fs p with
    | some bs =>
      match readFiles fs rest with
      | Except.ok others => Except.ok (bs :: others)
      | Except.error e => Except.error e
    | none => Except.error (TError.fileRead p)

/-- compute_training_signature(config, file_paths): SHA-256 over the
canonical JSON of the config mapping without the "data_path" key, then
over the byte content of each listed file in order; open() on a missing
path raises (models lines 4-10 of src/utils/signature.py). -/
def compute_training_signature (config : List (String × JValue)) (file_paths : List String)
    (fs : FS) : Except TError String :=
  match readFiles fs file_paths with
  | Except.error e => Except.error e
  | Except.ok contents =>
    Except.ok (sha256hex
      ((dumpsDict (config.filter fun kv => !(kv.1 == "data_path"))).flatMap utf8Bytes
        ++ contents.flatten))

/-! ## src/utils/training_types.py -/

/-- TrainingConfig: the three declared dataclass fields plus any extra
attributes attached by setattr (from_dict extras, composite_run_key). -/
structure TrainingConfig where
  model_type : String
  model_script : String
  signature_files : List String
  extra : List (String × JValue)
deriving DecidableEq

/-- config.__dict__: declared fields in dataclass order, then the
attributes added by setattr in insertion order. -/
def TrainingConfig.dict (c : TrainingConfig) : List (String × JValue) :=
  ("model_type", JValue.s c.model_type) ::
  ("model_script", JValue.s c.model_script) ::
  ("signature_files", JValue.arr c.signature_files) ::
  c.extra

/-- TrainingConfig(...) construction: __post_init__ raises ValueError when
any required field is falsy (empty string or empty list), per
src/utils/training_types.py lines 19-24. -/
def TrainingConfig.make (model_type model_script : String) (signature_files : List String) :
    Except String TrainingConfig :=
  if model_type = "" then Except.error "Required field model_type is missing"
  else if model_script = "" then Except.error "Required field model_script is missing"
  else if signature_files = [] then Except.error "Required field signature_files is missing"
  else Except.ok ⟨model_type, model_script, signature_files, []⟩

/-- hasattr(config, "composite_run_key"): the attribute is only ever
attached via setattr, so it lives among the extra attributes. -/
def TrainingConfig.composite_run_key? (c : TrainingConfig) : Option JValue :=
  List.lookup "composite_run_key" c.extra

/-! ## The MLflow run registry, as seen through the orchestrator -/

/-- One recorded MLflow run: the experiment it was recorded under, tags,
logged params, logged metrics. Tag values are stored stringified, as
MLflow stores them. -/
structure RunRecord where
  experiment : String
  tags : List (String × String)
  params : List (String × JValue)
  metrics : List (String × Rat)
deriving DecidableEq

/-- The tracking store plus the fluent-API client state: the active
experiment (mlflow.set_experiment mutates it; runs are created in it and
fluent searches are scoped to it) and reachability (when ok is false
every search raises, which run_exists_with_tag catches). -/
structure RegistryState where
  runs : List RunRecord
  active_experiment : String
  ok : Bool
deriving DecidableEq

/-- mlflow.set_experiment(name): switch the fluent API to the named
experiment (creating it if absent). -/
def set_experiment (st : RegistryState) (name : String) : RegistryState :=
  { st with active_experiment := name }

/-- mlflow.search_runs(filter_string="tags.k = 'v'"): with no experiment
ids or names given, the fluent call searches only the currently active
experiment; or an exception when the server is unreachable. -/
def searchRuns (st : RegistryState) (tag_key tag_value : String) :
    Except String (List RunRecord) :=
  if st.ok then
    Except.ok (st.runs.filter fun r =>
      r.experiment == st.active_experiment
        && ((List.lookup tag_key r.tags) == some tag_value))
  else Except.error "MLflow search failed"

/-! ## src/utils/training_orchestrator.py -/

/-- TrainingOrchestrator.run_exists_with_tag (lines 58-76): true when a
run with the tag exists, false when none does or when the query raises. -/
def run_exists_with_tag (st : RegistryState) (tag_key tag_value : String) : Bool :=
  match searchRuns st tag_key tag_value with
  | Except.ok rs => !rs.isEmpty
  | Except.error _ => false

/-- TrainingOrchestrator.check_if_already_trained (lines 78-97): composite
run key first when the attribute exists, else the legacy signature (whose
file reads may raise and propagate). -/
def check_if_already_trained (st : RegistryState) (fs : FS) (config : TrainingConfig) :
    Except TError Bool :=
  match config.composite_run_key? with
  | some k => Except.ok (run_exists_with_tag st "composite_run_key" k.pyStr)
  | none => do
    let signature ← compute_training_signature config.dict config.signature_files fs
    Except.ok (run_exists_with_tag st "signature" signature)

/-- Metrics record returned by a training function (rmse, r2, mae). -/
structure TrainingMetrics where
  rmse : Rat
  r2 : Rat
  mae : Rat
deriving DecidableEq

def TrainingMetrics.to_dict (m : TrainingMetrics) : List (String × Rat) :=
  [("rmse", m.rmse), ("r2", m.r2), ("mae", m.mae)]

/-- TrainingResult: metrics plus model metadata (the fitted model object
itself is opaque to the registry embedding). -/
structure TrainingResult where
  metrics : TrainingMetrics
  model_info : List (String × JValue)
  signature : String
deriving DecidableEq

/-- The dynamically loaded training function: returns a result or raises. -/
def TrainFunc : Type := TrainingConfig → Except TError TrainingResult

/-- The composite_run_key tag set first inside the run scope (line 140-141),
when the attribute is present. -/
def compositeTags (config : TrainingConfig) : List (String × String) :=
  match config.composite_run_key? with
  | some k => [("composite_run_key", k.pyStr)]
  | none => []

/-- The parameters logged via mlflow.log_params (lines 149-153): the full
config.__dict__ minus the internal fields model_script and signature_files. -/
def loggedParams (config : TrainingConfig) : List (String × JValue) :=
  config.dict.filter fun kv =>
    !(kv.1 == "model_script") && !(kv.1 == "signature_files")

/-- The body of the mlflow.start_run() block in run_training (lines
138-172): the run is created in the experiment active at start_run time,
and tags are written to the run record as they are set, so a run that
fails midway still persists with whatever was recorded before the
exception (MLflow keeps the failed run). -/
def start_run_block (st : RegistryState) (fs : FS) (config : TrainingConfig)
    (train_func : TrainFunc) : RegistryState × Except TError (Option TrainingResult) :=
  match compute_training_signature config.dict config.signature_files fs with
  | Except.error e =>
    ({ st with runs := st.runs ++ [⟨st.active_experiment, compositeTags config, [], []⟩] },
     Except.error e)
  | Except.ok signature =>
    let tags1 := compositeTags config ++ [("signature", signature)]
    match train_func config with
    | Except.error e =>
      ({ st with runs := st.runs
          ++ [⟨st.active_experiment, tags1, loggedParams config, []⟩] },
       Except.error e)
    | Except.ok result =>
      let tags2 := tags1 ++ result.model_info.map fun kv =>
        ("model_" ++ kv.1, kv.2.pyStr)
      ({ st with runs := st.runs
          ++ [⟨st.active_experiment, tags2, loggedParams config, result.metrics.to_dict⟩] },
       Except.ok (some result))

/-- TrainingOrchestrator.run_training (lines 99-172): skip when already
trained (unless force_retrain), otherwise mlflow.set_experiment(
config.model_type) at line 135 — after the skip-check at line 123 — and
run the training inside an MLflow run scope; exceptions propagate to the
caller. -/
def run_training (st : RegistryState) (fs : FS) (config : TrainingConfig)
    (train_func : TrainFunc) (force_retrain : Bool) :
    RegistryState × Except TError (Option TrainingResult) :=
  if force_retrain then
    start_run_block (set_experiment st config.model_type) fs config train_func
  else
    match check_if_already_trained st fs config with
    | Except.error e => (st, Except.error e)
    | Except.ok true => (st, Except.ok none)
    | Except.ok false =>
      start_run_block (set_experiment st config.model_type) fs config train_func

/-- TrainingOrchestrator.train_multiple_configs (lines 197-229): process
every config in order, catch any per-config exception and continue,
collect the results of the configs that trained. -/
def train_multiple_configs (st : RegistryState) (fs : FS) (configs : List TrainingConfig)
    (train_func : TrainFunc) : RegistryState × List TrainingResult :=
  match configs with
  | [] => (st, [])
  | config :: rest =>
    let step := run_training st fs config train_func false
    let batch := train_multiple_configs step.1 fs rest train_func
    match step.2 with
    | Except.ok (some result) => (batch.1, result :: batch.2)
    | _ => (batch.1, batch.2)

/-- The per-config outcomes of a batch, in order: the observable trace
used to state partial-failure isolation. -/
def batch_outcomes (st : RegistryState) (fs : FS) (configs : List TrainingConfig)
    (train_func : TrainFunc) : List (Except TError (Option TrainingResult)) :=
  match configs with
  | [] => []
  | config :: rest =>
    let step := run_training st fs config train_func false
    step.2 :: batch_outcomes step.1 fs rest train_func

/-! ## src/train_dispatch_pure.py -/

/-- compute_composite_run_key (lines 17-53): git SHA prefix (or the
"no-git" sentinel), 8-char truncated SHA-256 of str(sorted(items)) of the
config dict, and 8-char truncated SHA-256 of str(mtime) of the dataset
file (or the "no-data" sentinel), joined by ":". git and the dataset stat
are environment inputs, passed explicitly. -/
def compute_composite_run_key (git_sha? : Option String) (data_mtime? : Option String)
    (config : TrainingConfig) : String :=
  let git_sha := match git_sha? with
    | some s => s
    | none => "no-git"
  let config_hash := strTake (sha256hex ((pyReprItems config.dict).flatMap utf8Bytes)) 8
  let data_hash := match data_mtime? with
    | some m => strTake (sha256hex (strBytes m)) 8
    | none => "no-data"
  strTake git_sha 8 ++ ":" ++ config_hash ++ ":" ++ data_hash

/-! ## Order lemmas for the canonical key sort -/

theorem lexLe_cons (x y : Char) (xs ys : List Char) :
    lexLe (x :: xs) (y :: ys) =
      if x.toNat < y.toNat then true
      else if y.toNat < x.toNat then false
      else lexLe xs ys := rfl

theorem lexLe_total : ∀ a b, lexLe a b = true ∨ lexLe b a = true
  | [], _ => Or.inl rfl
  | _ :: _, [] => Or.inr rfl
  | x :: xs, y :: ys => by
    rcases Nat.lt_trichotomy x.toNat y.toNat with h | h | h
    · left; rw [lexLe_cons, if_pos h]
    · rcases lexLe_total xs ys with hr | hr
      · left
        rw [lexLe_cons, if_neg (by omega), if_neg (by omega)]
        exact hr
      · right
        rw [lexLe_cons, if_neg (by omega), if_neg (by omega)]
        exact hr
    · right; rw [lexLe_cons, if_pos h]

theorem lexLe_trans : ∀ {a b c}, lexLe a b = true → lexLe b c = true → lexLe a c = true
  | [], _, _, _, _ => rfl
  | _ :: _, [], _, h1, _ => by simp [lexLe] at h1
  | _ :: _, _ :: _, [], _, h2 => by simp [lexLe] at h2
  | x :: xs, y :: ys, z :: zs, h1, h2 => by
    rw [lexLe_cons] at h1 h2 ⊢
    rcases Nat.lt_trichotomy x.toNat y.toNat with hxy | hxy | hxy
    · rcases Nat.lt_trichotomy y.toNat z.toNat with hyz | hyz | hyz
      · rw [if_pos (Nat.lt_trans hxy hyz)]
      · rw [if_pos (hyz ▸ hxy)]
      · rw [if_neg (by omega), if_pos hyz] at h2
        exact absurd h2 (by simp)
    · rcases Nat.lt_trichotomy y.toNat z.toNat with hyz | hyz | hyz
      · rw [if_pos (hxy ▸ hyz)]
      · rw [if_neg (by omega), if_neg (by omega)]
        rw [if_neg (by omega), if_neg (by omega)] at h1
        rw [if_neg (by omega), if_neg (by omega)] at h2
        exact lexLe_trans h1 h2
      · rw [if_neg (by omega), if_pos hyz] at h2
        exact absurd h2 (by simp)
    · rw [if_neg (by omega), if_pos hxy] at h1
      exact absurd h1 (by simp)

theorem lexLe_antisymm : ∀ {a b}, lexLe a b = true → lexLe b a = true → a = b
  | [], [], _, _ => rfl
  | [], _ :: _, _, h2 => by simp [lexLe] at h2
  | _ :: _, [], h1, _ => by simp [lexLe] at h1
  | x :: xs, y :: ys, h1, h2 => by
    rw [lexLe_cons] at h1 h2
    rcases Nat.lt_trichotomy x.toNat y.toNat with hxy | hxy | hxy
    · rw [if_neg (by omega), if_pos hxy] at h2
      exact absurd h2 (by simp)
    · have hx : x = y := Char.ext (UInt32.ext hxy)
      rw [if_neg (by omega), if_neg (by omega)] at h1
      rw [if_neg (by omega), if_neg (by omega)] at h2
      exact hx ▸ congrArg (x :: ·) (lexLe_antisymm h1 h2)
    · rw [if_neg (by omega), if_pos hxy] at h1
      exact absurd h1 (by simp)

/-- Strict key order: used only to show key-sorted nodup lists are unique. -/
def keyLt (a b : String × JValue) : Prop := keyLe a b ∧ a.1 ≠ b.1

instance : IsTotal (String × JValue) keyLe := ⟨fun _ _ => lexLe_total _ _⟩

instance : IsTrans (String × JValue) keyLe := ⟨fun _ _ _ h1 h2 => lexLe_trans h1 h2⟩

theorem string_toList_inj {a b : String} (h : a.toList = b.toList) : a = b := by
  cases a; cases b; exact congrArg String.mk (by simpa [String.toList] using h)

instance : IsAntisymm (String × JValue) keyLt :=
  ⟨fun _ _ h1 h2 => absurd (string_toList_inj (lexLe_antisymm h1.1 h2.1)) h1.2⟩

theorem canonSort_perm (l : List (String × JValue)) : List.Perm (canonSort l) l :=
  List.perm_insertionSort keyLe l

theorem canonSort_sorted_keyLt {l : List (String × JValue)}
    (hnd : (l.map Prod.fst).Nodup) : (canonSort l).Sorted keyLt := by
  have hs : (canonSort l).Sorted keyLe := List.sorted_insertionSort keyLe l
  have hperm : List.Perm ((canonSort l).map Prod.fst) (l.map Prod.fst) := (canonSort_perm l).map _
  have hnd2 : ((canonSort l).map Prod.fst).Nodup := hperm.nodup_iff.mpr hnd
  have hne : (canonSort l).Pairwise (fun a b => a.1 ≠ b.1) := List.pairwise_map.mp hnd2
  exact (hs.and hne).imp fun h => ⟨h.1, h.2⟩

theorem canonSort_eq_of_perm {l1 l2 : List (String × JValue)} (hp : List.Perm l1 l2)
    (hnd : (l1.map Prod.fst).Nodup) : canonSort l1 = canonSort l2 := by
  have hnd2 : (l2.map Prod.fst).Nodup := (hp.map Prod.fst).nodup_iff.mp hnd
  exact List.eq_of_perm_of_sorted
    ((canonSort_perm l1).trans (hp.trans (canonSort_perm l2).symm))
    (canonSort_sorted_keyLt hnd) (canonSort_sorted_keyLt hnd2)


/-! ## Signature congruence lemmas -/

theorem dumpsDict_eq_of_perm {d1 d2 : List (String × JValue)} (hp : List.Perm d1 d2)
    (hnd : (d1.map Prod.fst).Nodup) : dumpsDict d1 = dumpsDict d2 := by
  unfold dumpsDict
  rw [canonSort_eq_of_perm hp hnd]

theorem signature_filter_congr {c1 c2 : List (String × JValue)} {F : List String} {fs : FS}
    (h : dumpsDict (c1.filter fun kv => !(kv.1 == "data_path"))
       = dumpsDict (c2.filter fun kv => !(kv.1 == "data_path"))) :
    compute_training_signature c1 F fs = compute_training_signature c2 F fs := by
  unfold compute_training_signature
  rw [h]

/-- Claim C4: determinism of the signature. The signature is a pure
function of the config mapping and the file bytes: it does not depend on
the iteration order in which the config fields are listed (sort_keys
canonicalizes), nor on process identity or time (no such inputs exist). -/
theorem claim_C4_signature_deterministic (c1 c2 : List (String × JValue))
    (F : List String) (fs : FS) (hp : List.Perm c1 c2)
    (hnd : (c1.map Prod.fst).Nodup) :
    compute_training_signature c1 F fs = compute_training_signature c2 F fs := by
  apply signature_filter_congr
  apply dumpsDict_eq_of_perm (hp.filter _)
  exact ((List.filter_sublist c1).map Prod.fst).nodup hnd

theorem claim_C4_witness :
    compute_training_signature
        [("model_type", JValue.s "rf"), ("n_estimators", JValue.n 100)] ["a.csv"]
        [("a.csv", [1, 2, 3])]
      = compute_training_signature
        [("n_estimators", JValue.n 100), ("model_type", JValue.s "rf")] ["a.csv"]
        [("a.csv", [1, 2, 3])] :=
  claim_C4_signature_deterministic _ _ _ _ (by decide) (by decide)

/-- Claim C5: noninterference of the excluded volatile field. Two config
mappings that agree outside the "data_path" key (it may be absent, or
present with any value) produce the same signature. -/
theorem claim_C5_data_path_excluded (c1 c2 : List (String × JValue))
    (F : List String) (fs : FS)
    (h : c1.filter (fun kv => !(kv.1 == "data_path"))
       = c2.filter (fun kv => !(kv.1 == "data_path"))) :
    compute_training_signature c1 F fs = compute_training_signature c2 F fs :=
  signature_filter_congr (by rw [h])

theorem claim_C5_witness :
    compute_training_signature
        [("model_type", JValue.s "rf"), ("data_path", JValue.s "/data/a.csv")] [] []
      = compute_training_signature [("model_type", JValue.s "rf")] [] [] :=
  claim_C5_data_path_excluded _ _ _ _ (by decide)

/-- Claim C3: registry-failure conservatism. When the underlying search
raises, run_exists_with_tag returns false instead of propagating, for
every tag key and value — even when a matching run record is present. -/
theorem claim_C3_registry_failure_returns_false (st : RegistryState) (k v : String)
    (h : st.ok = false) : run_exists_with_tag st k v = false := by
  unfold run_exists_with_tag searchRuns
  rw [h]
  rfl

theorem claim_C3_witness :
    run_exists_with_tag ⟨[⟨"rf", [("composite_run_key", "k1")], [], []⟩], "rf", false⟩
      "composite_run_key" "k1" = false :=
  claim_C3_registry_failure_returns_false _ _ _ rfl

/-- Claim C10: for a config carrying the composite_run_key attribute the
skip-check is exactly the registry query on that key; the right-hand side
does not mention the file system, so no signature file is read and the
check cannot fail. -/
theorem claim_C10_composite_key_short_circuits (st : RegistryState) (fs : FS)
    (cfg : TrainingConfig) (v : JValue) (h : cfg.composite_run_key? = some v) :
    check_if_already_trained st fs cfg
      = Except.ok (run_exists_with_tag st "composite_run_key" v.pyStr) := by
  unfold check_if_already_trained
  rw [h]

theorem claim_C10_witness :
    check_if_already_trained ⟨[], "Default", true⟩ []
        ⟨"rf", "models.rf", ["nonexistent.csv"], [("composite_run_key", JValue.s "abc:def:ghi")]⟩
      = Except.ok (run_exists_with_tag ⟨[], "Default", true⟩ "composite_run_key" "abc:def:ghi") :=
  claim_C10_composite_key_short_circuits _ _ _ _ rfl

/-- Claim C7 counterexample: TrainingConfig construction with non-empty
model_type and model_script but an empty signature_files list does not
succeed: __post_init__ tests truthiness, and an empty list is falsy, so
construction raises ValueError exactly as for a missing field. -/
theorem claim_C7_counterexample :
    TrainingConfig.make "rf" "models.rf" []
      = Except.error "Required field signature_files is missing" := rfl

/-- Claim C7 (amended): construction with an empty signature_files list
fails with the missing-field ValueError (the empty list is falsy under
the getattr truthiness test); construction succeeds when all three
required fields are non-empty. -/
theorem claim_C7_amended (model_type model_script : String) (sf : List String)
    (h1 : model_type ≠ "") (h2 : model_script ≠ "") :
    TrainingConfig.make model_type model_script []
        = Except.error "Required field signature_files is missing" ∧
      (sf ≠ [] → TrainingConfig.make model_type model_script sf
        = Except.ok ⟨model_type, model_script, sf, []⟩) := by
  unfold TrainingConfig.make
  refine ⟨by rw [if_neg h1, if_neg h2, if_pos rfl], fun h3 => by rw [if_neg h1, if_neg h2, if_neg h3]⟩

theorem claim_C7_amended_witness :
    TrainingConfig.make "rf" "models.rf" []
        = Except.error "Required field signature_files is missing" ∧
      (["a.csv"] ≠ ([] : List String) → TrainingConfig.make "rf" "models.rf" ["a.csv"]
        = Except.ok ⟨"rf", "models.rf", ["a.csv"], []⟩) :=
  claim_C7_amended "rf" "models.rf" ["a.csv"] (by decide) (by decide)

/-! ## Composite-key structure (C8) -/

theorem string_mk_length (l : List Char) : (String.mk l).length = l.length := rfl

theorem string_mk_toList (l : List Char) : (String.mk l).toList = l := rfl

theorem string_mk_append (a b : List Char) : String.mk a ++ String.mk b = String.mk (a ++ b) := rfl

theorem hex8_length (w : Nat) : (hex8 w).length = 8 := by simp [hex8]

theorem sha256hexChars_length (m : List Nat) : (sha256hexChars m).length = 64 := by
  simp [sha256hexChars, hex8_length]

theorem hexDigit_lt16_ne_colon : ∀ n, n < 16 → hexDigit n ≠ ':' := by decide

theorem mem_hex8_ne_colon {c : Char} {w : Nat} (h : c ∈ hex8 w) : c ≠ ':' := by
  simp only [hex8, List.mem_map, List.mem_range] at h
  obtain ⟨i, _, rfl⟩ := h
  exact hexDigit_lt16_ne_colon _ (Nat.mod_lt _ (by decide))

theorem colon_not_mem_sha256hexChars (m : List Nat) : ':' ∉ sha256hexChars m := by
  intro h
  simp only [sha256hexChars, List.mem_append] at h
  rcases h with ((((((h | h) | h) | h) | h) | h) | h) | h <;>
    exact mem_hex8_ne_colon h rfl

theorem strTake_sha_length (m : List Nat) : (strTake (sha256hex m) 8).length = 8 := by
  show ((sha256hex m).toList.take 8).length = 8
  rw [show (sha256hex m).toList = sha256hexChars m from rfl, List.length_take,
    sha256hexChars_length]
  decide

theorem strTake_sha_colon_free (m : List Nat) : ':' ∉ (strTake (sha256hex m) 8).toList := by
  intro h
  have h2 : ':' ∈ sha256hexChars m := List.take_subset 8 _ h
  exact colon_not_mem_sha256hexChars m h2

/-- Claim C8: the composite run key is three colon-free segments joined by
the fixed ":" delimiter: the 8-character git-revision prefix (or the
"no-git" sentinel), the 8-character truncated config-fields hash, and the
8-character truncated dataset-mtime hash (or the "no-data" sentinel).
The git revision, when available, is a 40-character hex SHA. -/
theorem claim_C8_composite_key_structure (git mtime : Option String)
    (cfg : TrainingConfig)
    (hgit : ∀ s, git = some s → s.length = 40 ∧ ':' ∉ s.toList) :
    ∃ a b c, compute_composite_run_key git mtime cfg = a ++ ":" ++ b ++ ":" ++ c
      ∧ (a.length = 8 ∨ a = "no-git") ∧ b.length = 8 ∧ (c.length = 8 ∨ c = "no-data")
      ∧ ':' ∉ a.toList ∧ ':' ∉ b.toList ∧ ':' ∉ c.toList := by
  unfold compute_composite_run_key
  cases git with
  | none =>
    cases mtime with
    | none =>
      refine ⟨strTake "no-git" 8, _, "no-data", rfl, Or.inr (by decide), strTake_sha_length _,
        Or.inr rfl, by decide, strTake_sha_colon_free _, by decide⟩
    | some m =>
      refine ⟨strTake "no-git" 8, _, _, rfl, Or.inr (by decide), strTake_sha_length _,
        Or.inl (strTake_sha_length _), by decide, strTake_sha_colon_free _,
        strTake_sha_colon_free _⟩
  | some s =>
    obtain ⟨hlen, hcol⟩ := hgit s rfl
    cases mtime with
    | none =>
      refine ⟨strTake s 8, _, "no-data", rfl, Or.inl ?_, strTake_sha_length _,
        Or.inr rfl, ?_, strTake_sha_colon_free _, by decide⟩
      · have : s.toList.length = s.length := rfl
        simp [strTake, string_mk_length, List.length_take, this, hlen]
      · intro h
        exact hcol (List.take_subset 8 _ h)
    | some m =>
      refine ⟨strTake s 8, _, _, rfl, Or.inl ?_, strTake_sha_length _,
        Or.inl (strTake_sha_length _), ?_, strTake_sha_colon_free _,
        strTake_sha_colon_free _⟩
      · have : s.toList.length = s.length := rfl
        simp [strTake, string_mk_length, List.length_take, this, hlen]
      · intro h
        exact hcol (List.take_subset 8 _ h)

theorem claim_C8_witness :
    ∃ a b c,
      compute_composite_run_key (some "a1b2c3d4e5f60718293a4b5c6d7e8f9001122334")
          (some "1700000000.123")
          ⟨"rf", "models.rf", ["a.csv"], [("n_estimators", JValue.n 100)]⟩
        = a ++ ":" ++ b ++ ":" ++ c
      ∧ (a.length = 8 ∨ a = "no-git") ∧ b.length = 8 ∧ (c.length = 8 ∨ c = "no-data")
      ∧ ':' ∉ a.toList ∧ ':' ∉ b.toList ∧ ':' ∉ c.toList :=
  claim_C8_composite_key_structure _ _ _ (by intro s hs; cases hs; exact ⟨rfl, by decide⟩)

/-! ## Batch processing (C2) -/

theorem tmc_cons (st : RegistryState) (fs : FS) (c : TrainingConfig)
    (rest : List TrainingConfig) (tf : TrainFunc) :
    train_multiple_configs st fs (c :: rest) tf =
      match (run_training st fs c tf false).2 with
      | Except.ok (some r) =>
        ((train_multiple_configs (run_training st fs c tf false).1 fs rest tf).1,
         r :: (train_multiple_configs (run_training st fs c tf false).1 fs rest tf).2)
      | _ => train_multiple_configs (run_training st fs c tf false).1 fs rest tf := by
  simp only [train_multiple_configs]

theorem batch_outcomes_cons (st : RegistryState) (fs : FS) (c : TrainingConfig)
    (rest : List TrainingConfig) (tf : TrainFunc) :
    batch_outcomes st fs (c :: rest) tf =
      (run_training st fs c tf false).2 ::
        batch_outcomes (run_training st fs c tf false).1 fs rest tf := rfl

/-- Claim C2: partial failure isolation. The batch result list is exactly
the successful outcomes of the per-config trace, every config contributes
exactly one outcome (so a raising config is caught and every subsequent
config is still attempted), and each success contributes exactly one
result. -/
theorem claim_C2_partial_failure_isolation (st : RegistryState) (fs : FS)
    (cfgs : List TrainingConfig) (tf : TrainFunc) :
    (train_multiple_configs st fs cfgs tf).2
        = (batch_outcomes st fs cfgs tf).filterMap (fun o =>
            match o with
            | Except.ok (some r) => some r
            | _ => none) ∧
    (batch_outcomes st fs cfgs tf).length = cfgs.length := by
  induction cfgs generalizing st with
  | nil => exact ⟨rfl, rfl⟩
  | cons c rest ih =>
    rw [tmc_cons, batch_outcomes_cons]
    refine ⟨?_, ?_⟩
    · rcases h : (run_training st fs c tf false).2 with e | o
      · simpa [List.filterMap_cons] using (ih _).1
      · rcases o with _ | r <;> simpa [List.filterMap_cons] using (ih _).1
    · simpa using (ih _).2

/-! ## FileReadError propagation (C6) -/

theorem readFiles_error_of_missing (fs : FS) :
    ∀ paths : List String, (∃ p, p ∈ paths ∧ fsRead fs p = none) →
      ∃ q, fsRead fs q = none ∧ readFiles fs paths = Except.error (TError.fileRead q)
  | [], ⟨_, hp, _⟩ => absurd hp (List.not_mem_nil _)
  | p0 :: rest, ⟨p, hp, hnone⟩ => by
    cases hread : fsRead fs p0 with
    | none => exact ⟨p0, hread, by simp [readFiles, hread]⟩
    | some bs =>
      have hmem : p ∈ rest := by
        rcases List.mem_cons.mp hp with rfl | h
        · rw [hread] at hnone; cases hnone
        · exact h
      obtain ⟨q, hq1, hq2⟩ := readFiles_error_of_missing fs rest ⟨p, hmem, hnone⟩
      exact ⟨q, hq1, by simp [readFiles, hread, hq2]⟩

theorem compute_signature_error (config : List (String × JValue)) (paths : List String)
    (fs : FS) (h : ∃ p, p ∈ paths ∧ fsRead fs p = none) :
    ∃ q, fsRead fs q = none ∧
      compute_training_signature config paths fs = Except.error (TError.fileRead q) := by
  obtain ⟨q, h1, h2⟩ := readFiles_error_of_missing fs paths h
  exact ⟨q, h1, by simp [compute_training_signature, h2]⟩

theorem check_legacy (st : RegistryState) (fs : FS) (cfg : TrainingConfig)
    (hc : cfg.composite_run_key? = none) :
    check_if_already_trained st fs cfg =
      match compute_training_signature cfg.dict cfg.signature_files fs with
      | Except.error e => Except.error e
      | Except.ok s => Except.ok (run_exists_with_tag st "signature" s) := by
  unfold check_if_already_trained
  rw [hc]
  cases hsig : compute_training_signature cfg.dict cfg.signature_files fs <;> rfl

theorem run_training_not_forced (st : RegistryState) (fs : FS) (cfg : TrainingConfig)
    (tf : TrainFunc) :
    run_training st fs cfg tf false =
      match check_if_already_trained st fs cfg with
      | Except.error e => (st, Except.error e)
      | Except.ok true => (st, Except.ok none)
      | Except.ok false =>
        start_run_block (set_experiment st cfg.model_type) fs cfg tf := by
  unfold run_training
  rw [if_neg (by decide)]

theorem run_training_fileread (cfg : TrainingConfig) (fs : FS) (tf : TrainFunc)
    (hc : cfg.composite_run_key? = none)
    (h : ∃ p, p ∈ cfg.signature_files ∧ fsRead fs p = none) :
    ∃ q, fsRead fs q = none ∧ ∀ st : RegistryState,
      run_training st fs cfg tf false = (st, Except.error (TError.fileRead q)) := by
  obtain ⟨q, h1, h2⟩ := compute_signature_error cfg.dict cfg.signature_files fs h
  refine ⟨q, h1, fun st => ?_⟩
  rw [run_training_not_forced, check_legacy st fs cfg hc, h2]

theorem tmc_append (fs : FS) (tf : TrainFunc) :
    ∀ (xs : List TrainingConfig) (st : RegistryState) (ys : List TrainingConfig),
      train_multiple_configs st fs (xs ++ ys) tf
        = ((train_multiple_configs (train_multiple_configs st fs xs tf).1 fs ys tf).1,
           (train_multiple_configs st fs xs tf).2
             ++ (train_multiple_configs (train_multiple_configs st fs xs tf).1 fs ys tf).2)
  | [], st, ys => by simp [train_multiple_configs]
  | x :: xs, st, ys => by
    rw [List.cons_append, tmc_cons, tmc_cons, tmc_append fs tf xs _ ys]
    cases h : (run_training st fs x tf false).2 with
    | error e => rfl
    | ok o => cases o <;> rfl

/-! ## Registry monotonicity and state lemmas (C1) -/

/-- Claim C6: FileReadError propagation. A config whose signature_files
reference a missing path makes identity computation fail with a
FileReadError that propagates out of run_training (leaving the registry
untouched), and in a batch that config contributes no result while every
config before and after it is processed exactly as if it were absent. -/
theorem claim_C6_fileread_error_propagates (cfg : TrainingConfig) (fs : FS)
    (tf : TrainFunc) (p : String) (hc : cfg.composite_run_key? = none)
    (hp : p ∈ cfg.signature_files) (hfs : fsRead fs p = none) :
    (∃ q, fsRead fs q = none ∧ ∀ st : RegistryState,
        run_training st fs cfg tf false = (st, Except.error (TError.fileRead q))) ∧
    ∀ (st : RegistryState) (pre post : List TrainingConfig),
      train_multiple_configs st fs (pre ++ cfg :: post) tf
        = ((train_multiple_configs (train_multiple_configs st fs pre tf).1 fs post tf).1,
           (train_multiple_configs st fs pre tf).2
             ++ (train_multiple_configs (train_multiple_configs st fs pre tf).1 fs post tf).2) := by
  obtain ⟨q, h1, h2⟩ := run_training_fileread cfg fs tf hc ⟨p, hp, hfs⟩
  refine ⟨⟨q, h1, h2⟩, fun st pre post => ?_⟩
  rw [tmc_append, tmc_cons, h2]

/-- Concrete file system for witnesses: one readable dataset file. -/
def wFS : FS := [("a.csv", [49, 50, 51])]

/-- A config whose signature file is missing from wFS. -/
def wCfgBad : TrainingConfig := ⟨"rf", "models.rf", ["missing.csv"], []⟩

def wCfg1 : TrainingConfig := ⟨"xgb", "models.xgb", ["a.csv"], []⟩

def wCfg2 : TrainingConfig := ⟨"transformer", "models.transformer", ["a.csv"], []⟩

def wRes : TrainingResult :=
  ⟨⟨1, 1, 1⟩, [("model_type", JValue.s "xgb")], ""⟩

/-- A training function that always succeeds with a fixed result. -/
def wTF : TrainFunc := fun _ => Except.ok wRes

theorem claim_C6_witness :
    train_multiple_configs ⟨[], "Default", true⟩ wFS ([wCfg1] ++ wCfgBad :: [wCfg2]) wTF
      = ((train_multiple_configs (train_multiple_configs ⟨[], "Default", true⟩ wFS [wCfg1] wTF).1
            wFS [wCfg2] wTF).1,
         (train_multiple_configs ⟨[], "Default", true⟩ wFS [wCfg1] wTF).2
           ++ (train_multiple_configs (train_multiple_configs ⟨[], "Default", true⟩ wFS [wCfg1] wTF).1
                wFS [wCfg2] wTF).2) :=
  (claim_C6_fileread_error_propagates wCfgBad wFS wTF "missing.csv" rfl (by decide) rfl).2
    ⟨[], "Default", true⟩ [wCfg1] [wCfg2]

end DrugDispatch

namespace DrugDispatch

theorem run_exists_iff (st : RegistryState) (k v : String) :
    run_exists_with_tag st k v = true ↔
      st.ok = true ∧ ∃ x, x ∈ st.runs ∧
        (x.experiment == st.active_experiment && (List.lookup k x.tags == some v)) = true := by
  unfold run_exists_with_tag searchRuns
  by_cases hok : st.ok
  · rw [if_pos hok]
    simp only [hok, true_and]
    constructor
    · intro h
      cases hf : st.runs.filter (fun r =>
          r.experiment == st.active_experiment && (List.lookup k r.tags == some v)) with
      | nil => rw [hf] at h; cases h
      | cons x xs =>
        have hx : x ∈ st.runs.filter (fun r =>
            r.experiment == st.active_experiment && (List.lookup k r.tags == some v)) := by
          rw [hf]; exact List.mem_cons_self x xs
        obtain ⟨hmem, hpred⟩ := List.mem_filter.mp hx
        exact ⟨x, hmem, hpred⟩
    · rintro ⟨x, hmem, hpred⟩
      have hx : x ∈ st.runs.filter (fun r =>
          r.experiment == st.active_experiment && (List.lookup k r.tags == some v)) :=
        List.mem_filter.mpr ⟨hmem, hpred⟩
      cases hf : st.runs.filter (fun r =>
          r.experiment == st.active_experiment && (List.lookup k r.tags == some v)) with
      | nil => rw [hf] at hx; cases hx
      | cons y ys => rfl
  · rw [if_neg hok]
    simp [hok]

theorem run_exists_mono {st st2 : RegistryState} (h2ok : st2.ok = true)
    (hact : st2.active_experiment = st.active_experiment)
    (hsub : ∀ x, x ∈ st.runs → x ∈ st2.runs) {k v : String}
    (h : run_exists_with_tag st k v = true) : run_exists_with_tag st2 k v = true := by
  obtain ⟨_, x, hmem, hpred⟩ := (run_exists_iff st k v).mp h
  refine (run_exists_iff st2 k v).mpr ⟨h2ok, x, hsub x hmem, ?_⟩
  rw [hact]
  exact hpred

theorem run_exists_of_mem {st : RegistryState} (hok : st.ok = true) {k v : String}
    {rec : RunRecord} (hmem : rec ∈ st.runs)
    (hexp : rec.experiment = st.active_experiment)
    (htag : List.lookup k rec.tags = some v) :
    run_exists_with_tag st k v = true :=
  (run_exists_iff st k v).mpr ⟨hok, rec, hmem, by rw [htag, hexp]; simp⟩

theorem check_composite (st : RegistryState) (fs : FS) (cfg : TrainingConfig) (v : JValue)
    (hc : cfg.composite_run_key? = some v) :
    check_if_already_trained st fs cfg
      = Except.ok (run_exists_with_tag st "composite_run_key" v.pyStr) := by
  unfold check_if_already_trained
  rw [hc]

theorem run_training_ok_eq (st : RegistryState) (fs : FS) (cfg : TrainingConfig)
    (tf : TrainFunc) (frc : Bool) : (run_training st fs cfg tf frc).1.ok = st.ok := by
  unfold run_training start_run_block
  repeat' split
  all_goals rfl

theorem run_training_runs_mono (st : RegistryState) (fs : FS) (cfg : TrainingConfig)
    (tf : TrainFunc) (frc : Bool) :
    ∀ x, x ∈ st.runs → x ∈ (run_training st fs cfg tf frc).1.runs := by
  unfold run_training start_run_block
  repeat' split
  all_goals intro x hx
  all_goals first
    | exact hx
    | exact List.mem_append_left _ hx

theorem tmc_state_cons (st : RegistryState) (fs : FS) (c : TrainingConfig)
    (rest : List TrainingConfig) (tf : TrainFunc) :
    (train_multiple_configs st fs (c :: rest) tf).1
      = (train_multiple_configs (run_training st fs c tf false).1 fs rest tf).1 := by
  rw [tmc_cons]
  cases h : (run_training st fs c tf false).2 with
  | error e => rfl
  | ok o => cases o <;> rfl

theorem tmc_ok_eq (fs : FS) (tf : TrainFunc) :
    ∀ (cfgs : List TrainingConfig) (st : RegistryState),
      (train_multiple_configs st fs cfgs tf).1.ok = st.ok
  | [], _ => rfl
  | c :: rest, st => by
    rw [tmc_state_cons, tmc_ok_eq fs tf rest, run_training_ok_eq]

theorem tmc_runs_mono (fs : FS) (tf : TrainFunc) :
    ∀ (cfgs : List TrainingConfig) (st : RegistryState) (x : RunRecord),
      x ∈ st.runs → x ∈ (train_multiple_configs st fs cfgs tf).1.runs
  | [], _, _, hx => hx
  | c :: rest, st, x, hx => by
    rw [tmc_state_cons]
    exact tmc_runs_mono fs tf rest _ x (run_training_runs_mono st fs c tf false x hx)

end DrugDispatch

namespace DrugDispatch

theorem srb_ok_eq (st : RegistryState) (fs : FS) (cfg : TrainingConfig)
    (tf : TrainFunc) : (start_run_block st fs cfg tf).1.ok = st.ok := by
  unfold start_run_block
  repeat' split
  all_goals rfl

theorem srb_active_eq (st : RegistryState) (fs : FS) (cfg : TrainingConfig)
    (tf : TrainFunc) :
    (start_run_block st fs cfg tf).1.active_experiment = st.active_experiment := by
  unfold start_run_block
  repeat' split
  all_goals rfl

theorem srb_composite_tag (st : RegistryState) (fs : FS) (cfg : TrainingConfig)
    (tf : TrainFunc) (v : JValue) (hc : cfg.composite_run_key? = some v) :
    ∃ rec, (start_run_block st fs cfg tf).1.runs = st.runs ++ [rec] ∧
      rec.experiment = st.active_experiment ∧
      List.lookup "composite_run_key" rec.tags = some v.pyStr := by
  have hct : compositeTags cfg = [("composite_run_key", v.pyStr)] := by
    unfold compositeTags; rw [hc]
  unfold start_run_block
  cases hs : compute_training_signature cfg.dict cfg.signature_files fs with
  | error e => exact ⟨_, rfl, rfl, by rw [hct]; rfl⟩
  | ok s =>
    cases htf : tf cfg with
    | error e => exact ⟨_, rfl, rfl, by rw [hct]; rfl⟩
    | ok result => exact ⟨_, rfl, rfl, by rw [hct]; rfl⟩

theorem srb_sig_tag (st : RegistryState) (fs : FS) (cfg : TrainingConfig)
    (tf : TrainFunc) (s : String) (hc : cfg.composite_run_key? = none)
    (hs : compute_training_signature cfg.dict cfg.signature_files fs = Except.ok s) :
    ∃ rec, (start_run_block st fs cfg tf).1.runs = st.runs ++ [rec] ∧
      rec.experiment = st.active_experiment ∧
      List.lookup "signature" rec.tags = some s := by
  have hct : compositeTags cfg = [] := by
    unfold compositeTags; rw [hc]
  unfold start_run_block
  rw [hs]
  cases htf : tf cfg with
  | error e => exact ⟨_, rfl, rfl, by rw [hct]; rfl⟩
  | ok result => exact ⟨_, rfl, rfl, by rw [hct]; rfl⟩

end DrugDispatch

namespace DrugDispatch

theorem check_legacy_ok (st : RegistryState) (fs : FS) (cfg : TrainingConfig) (s : String)
    (hc : cfg.composite_run_key? = none)
    (hs : compute_training_signature cfg.dict cfg.signature_files fs = Except.ok s) :
    check_if_already_trained st fs cfg
      = Except.ok (run_exists_with_tag st "signature" s) := by
  rw [check_legacy st fs cfg hc, hs]

theorem check_legacy_error (st : RegistryState) (fs : FS) (cfg : TrainingConfig) (e : TError)
    (hc : cfg.composite_run_key? = none)
    (hs : compute_training_signature cfg.dict cfg.signature_files fs = Except.error e) :
    check_if_already_trained st fs cfg = Except.error e := by
  rw [check_legacy st fs cfg hc, hs]

theorem run_training_active_eq (st : RegistryState) (fs : FS) (cfg : TrainingConfig)
    (tf : TrainFunc) (frc : Bool) (hmt : cfg.model_type = st.active_experiment) :
    (run_training st fs cfg tf frc).1.active_experiment = st.active_experiment := by
  unfold run_training
  repeat' split
  all_goals first
    | rfl
    | (rw [srb_active_eq]; exact hmt)

theorem run_training_second (st st2 : RegistryState) (fs : FS) (cfg : TrainingConfig)
    (tf : TrainFunc) (h2ok : st2.ok = true)
    (hmt : cfg.model_type = st.active_experiment)
    (hact : st2.active_experiment = st.active_experiment)
    (hsub : ∀ x, x ∈ (run_training st fs cfg tf false).1.runs → x ∈ st2.runs) :
    run_training st2 fs cfg tf false = (st2, Except.ok none) ∨
    ∃ e, (run_training st fs cfg tf false).2 = Except.error e ∧
         run_training st2 fs cfg tf false = (st2, Except.error e) := by
  cases hc : cfg.composite_run_key? with
  | some v =>
    cases hex : run_exists_with_tag st "composite_run_key" v.pyStr with
    | true =>
      left
      have hfirst : run_training st fs cfg tf false = (st, Except.ok none) := by
        rw [run_training_not_forced, check_composite st fs cfg v hc, hex]
      have hsub2 : ∀ x, x ∈ st.runs → x ∈ st2.runs := by
        intro x hx
        apply hsub
        rw [hfirst]
        exact hx
      rw [run_training_not_forced, check_composite st2 fs cfg v hc,
        run_exists_mono h2ok hact hsub2 hex]
    | false =>
      left
      have hfirst1 : (run_training st fs cfg tf false).1
          = (start_run_block (set_experiment st cfg.model_type) fs cfg tf).1 := by
        rw [run_training_not_forced, check_composite st fs cfg v hc, hex]
      obtain ⟨rec, hruns, hexp, htag⟩ :=
        srb_composite_tag (set_experiment st cfg.model_type) fs cfg tf v hc
      have hrec : rec ∈ st2.runs := by
        apply hsub
        rw [hfirst1, hruns]
        exact List.mem_append_right _ (List.mem_singleton.mpr rfl)
      have hexp2 : rec.experiment = st2.active_experiment := by
        rw [hact, ← hmt]
        exact hexp
      rw [run_training_not_forced, check_composite st2 fs cfg v hc,
        run_exists_of_mem h2ok hrec hexp2 htag]
  | none =>
    cases hs : compute_training_signature cfg.dict cfg.signature_files fs with
    | error e =>
      right
      refine ⟨e, ?_, ?_⟩
      · rw [run_training_not_forced, check_legacy_error st fs cfg e hc hs]
      · rw [run_training_not_forced, check_legacy_error st2 fs cfg e hc hs]
    | ok s =>
      cases hex : run_exists_with_tag st "signature" s with
      | true =>
        left
        have hfirst : run_training st fs cfg tf false = (st, Except.ok none) := by
          rw [run_training_not_forced, check_legacy_ok st fs cfg s hc hs, hex]
        have hsub2 : ∀ x, x ∈ st.runs → x ∈ st2.runs := by
          intro x hx
          apply hsub
          rw [hfirst]
          exact hx
        rw [run_training_not_forced, check_legacy_ok st2 fs cfg s hc hs,
          run_exists_mono h2ok hact hsub2 hex]
      | false =>
        left
        have hfirst1 : (run_training st fs cfg tf false).1
            = (start_run_block (set_experiment st cfg.model_type) fs cfg tf).1 := by
          rw [run_training_not_forced, check_legacy_ok st fs cfg s hc hs, hex]
        obtain ⟨rec, hruns, hexp, htag⟩ :=
          srb_sig_tag (set_experiment st cfg.model_type) fs cfg tf s hc hs
        have hrec : rec ∈ st2.runs := by
          apply hsub
          rw [hfirst1, hruns]
          exact List.mem_append_right _ (List.mem_singleton.mpr rfl)
        have hexp2 : rec.experiment = st2.active_experiment := by
          rw [hact, ← hmt]
          exact hexp
        rw [run_training_not_forced, check_legacy_ok st2 fs cfg s hc hs,
          run_exists_of_mem h2ok hrec hexp2 htag]

/-- After a successful (trained and recorded) run_training from a
reachable registry, re-running the same config against the resulting
state skips: the run was recorded in experiment config.model_type, which
set_experiment has made the active experiment, so the scoped search finds
its identity tag. -/
theorem run_training_success_skips (st0 st1 : RegistryState) (fs : FS)
    (cfg : TrainingConfig) (tf : TrainFunc) (r : TrainingResult)
    (hok : st0.ok = true)
    (h1 : run_training st0 fs cfg tf false = (st1, Except.ok (some r))) :
    run_training st1 fs cfg tf false = (st1, Except.ok none) := by
  cases hc : cfg.composite_run_key? with
  | some v =>
    cases hex : run_exists_with_tag st0 "composite_run_key" v.pyStr with
    | true =>
      rw [run_training_not_forced, check_composite st0 fs cfg v hc, hex] at h1
      exact absurd (congrArg Prod.snd h1) (by simp)
    | false =>
      have hfirst : start_run_block (set_experiment st0 cfg.model_type) fs cfg tf
          = (st1, Except.ok (some r)) := by
        rw [run_training_not_forced, check_composite st0 fs cfg v hc, hex] at h1
        exact h1
      obtain ⟨rec, hruns, hexp, htag⟩ :=
        srb_composite_tag (set_experiment st0 cfg.model_type) fs cfg tf v hc
      have hst1 : (start_run_block (set_experiment st0 cfg.model_type) fs cfg tf).1 = st1 := by
        rw [hfirst]
      have h1ok : st1.ok = true := by
        rw [← hst1, srb_ok_eq]
        exact hok
      have h1act : st1.active_experiment = cfg.model_type := by
        rw [← hst1, srb_active_eq]
        rfl
      have hrec1 : rec ∈ st1.runs := by
        rw [← hst1, hruns]
        exact List.mem_append_right _ (List.mem_singleton.mpr rfl)
      have hexp1 : rec.experiment = st1.active_experiment := by
        rw [h1act]
        exact hexp
      rw [run_training_not_forced, check_composite st1 fs cfg v hc,
        run_exists_of_mem h1ok hrec1 hexp1 htag]
  | none =>
    cases hs : compute_training_signature cfg.dict cfg.signature_files fs with
    | error e =>
      rw [run_training_not_forced, check_legacy_error st0 fs cfg e hc hs] at h1
      exact absurd (congrArg Prod.snd h1) (by simp)
    | ok s =>
      cases hex : run_exists_with_tag st0 "signature" s with
      | true =>
        rw [run_training_not_forced, check_legacy_ok st0 fs cfg s hc hs, hex] at h1
        exact absurd (congrArg Prod.snd h1) (by simp)
      | false =>
        have hfirst : start_run_block (set_experiment st0 cfg.model_type) fs cfg tf
            = (st1, Except.ok (some r)) := by
          rw [run_training_not_forced, check_legacy_ok st0 fs cfg s hc hs, hex] at h1
          exact h1
        obtain ⟨rec, hruns, hexp, htag⟩ :=
          srb_sig_tag (set_experiment st0 cfg.model_type) fs cfg tf s hc hs
        have hst1 : (start_run_block (set_experiment st0 cfg.model_type) fs cfg tf).1 = st1 := by
          rw [hfirst]
        have h1ok : st1.ok = true := by
          rw [← hst1, srb_ok_eq]
          exact hok
        have h1act : st1.active_experiment = cfg.model_type := by
          rw [← hst1, srb_active_eq]
          rfl
        have hrec1 : rec ∈ st1.runs := by
          rw [← hst1, hruns]
          exact List.mem_append_right _ (List.mem_singleton.mpr rfl)
        have hexp1 : rec.experiment = st1.active_experiment := by
          rw [h1act]
          exact hexp
        rw [run_training_not_forced, check_legacy_ok st1 fs cfg s hc hs,
          run_exists_of_mem h1ok hrec1 hexp1 htag]

end DrugDispatch

namespace DrugDispatch

theorem tmc_active_eq (fs : FS) (tf : TrainFunc) :
    ∀ (cfgs : List TrainingConfig) (st : RegistryState),
      (∀ c, c ∈ cfgs → c.model_type = st.active_experiment) →
      (train_multiple_configs st fs cfgs tf).1.active_experiment = st.active_experiment
  | [], _, _ => rfl
  | c :: rest, st, hmts => by
    have hmt : c.model_type = st.active_experiment := hmts c (List.mem_cons_self c rest)
    have h1 : (run_training st fs c tf false).1.active_experiment = st.active_experiment :=
      run_training_active_eq st fs c tf false hmt
    rw [tmc_state_cons,
      tmc_active_eq fs tf rest (run_training st fs c tf false).1
        (fun c2 hc2 => by rw [h1]; exact hmts c2 (List.mem_cons_of_mem c hc2))]
    exact h1

theorem tmc_second_stable (fs : FS) (tf : TrainFunc) :
    ∀ (cfgs : List TrainingConfig) (st st2 : RegistryState), st2.ok = true →
      st2.active_experiment = st.active_experiment →
      (∀ c, c ∈ cfgs → c.model_type = st.active_experiment) →
      (∀ x, x ∈ (train_multiple_configs st fs cfgs tf).1.runs → x ∈ st2.runs) →
      train_multiple_configs st2 fs cfgs tf = (st2, [])
  | [], _, _, _, _, _, _ => rfl
  | c :: rest, st, st2, h2ok, hact, hmts, hsub => by
    have hmt : c.model_type = st.active_experiment := hmts c (List.mem_cons_self c rest)
    have h1 : (run_training st fs c tf false).1.active_experiment = st.active_experiment :=
      run_training_active_eq st fs c tf false hmt
    have hsub1 : ∀ x, x ∈ (run_training st fs c tf false).1.runs → x ∈ st2.runs := by
      intro x hx
      apply hsub
      rw [tmc_state_cons]
      exact tmc_runs_mono fs tf rest _ x hx
    have htail : train_multiple_configs st2 fs rest tf = (st2, []) := by
      apply tmc_second_stable fs tf rest (run_training st fs c tf false).1 st2 h2ok
      · rw [h1]
        exact hact
      · intro c2 hc2
        rw [h1]
        exact hmts c2 (List.mem_cons_of_mem c hc2)
      · intro x hx
        apply hsub
        rw [tmc_state_cons]
        exact hx
    rw [tmc_cons]
    rcases run_training_second st st2 fs c tf h2ok hmt hact hsub1 with h | ⟨e, _, h⟩ <;>
      rw [h] <;> exact htail

set_option maxRecDepth 1000000 in
/-- Claim C1 counterexample: the batch half of the claim as stated is
false. mlflow.search_runs in run_exists_with_tag searches only the active
experiment, and mlflow.set_experiment(config.model_type) leaves the last
trained model_type active, so over a two-model_type batch run twice from
an empty registry the second pass finds none of the first-pass runs: it
performs two new training executions and two new registry writes instead
of zero. -/
theorem claim_C1_counterexample :
    (train_multiple_configs
        (train_multiple_configs ⟨[], "Default", true⟩ wFS [wCfg1, wCfg2] wTF).1
        wFS [wCfg1, wCfg2] wTF).2.length = 2
    ∧ (train_multiple_configs
        (train_multiple_configs ⟨[], "Default", true⟩ wFS [wCfg1, wCfg2] wTF).1
        wFS [wCfg1, wCfg2] wTF).1.runs.length = 4
    ∧ (train_multiple_configs ⟨[], "Default", true⟩ wFS [wCfg1, wCfg2] wTF).1.runs.length
        = 2 := by
  refine ⟨?_, ?_, ?_⟩ <;> rfl

/-- Claim C1 (amended): idempotence of dispatch within one experiment.
Over a reachable registry, a run_training call that trained and recorded
a run makes an identical second call against the resulting state skip
(return None) without changing the registry — set_experiment has left
that config's model_type active, so the scoped search finds the recorded
tag. A whole batch re-run performs zero trainings and zero registry
writes provided every config in the batch has the same model_type and
that model_type is the active experiment at the start; with more than one
model_type in the batch the scoped search misses runs recorded under
other experiments and the second pass retrains (see the counterexample). -/
theorem claim_C1_idempotence_single_experiment (st0 : RegistryState) (fs : FS)
    (tf : TrainFunc) (hok : st0.ok = true) :
    (∀ (cfg : TrainingConfig) (st1 : RegistryState) (r : TrainingResult),
        run_training st0 fs cfg tf false = (st1, Except.ok (some r)) →
        run_training st1 fs cfg tf false = (st1, Except.ok none)) ∧
    ∀ cfgs : List TrainingConfig,
      (∀ c, c ∈ cfgs → c.model_type = st0.active_experiment) →
      train_multiple_configs (train_multiple_configs st0 fs cfgs tf).1 fs cfgs tf
        = ((train_multiple_configs st0 fs cfgs tf).1, []) := by
  constructor
  · intro cfg st1 r h1
    exact run_training_success_skips st0 st1 fs cfg tf r hok h1
  · intro cfgs hmts
    apply tmc_second_stable fs tf cfgs st0
    · rw [tmc_ok_eq]
      exact hok
    · exact tmc_active_eq fs tf cfgs st0 hmts
    · exact hmts
    · intro x hx
      exact hx

end DrugDispatch

namespace DrugDispatch

set_option maxRecDepth 200000 in
theorem claim_C1_witness :
    (run_training (run_training ⟨[], "xgb", true⟩ wFS wCfg1 wTF false).1 wFS wCfg1 wTF false
        = ((run_training ⟨[], "xgb", true⟩ wFS wCfg1 wTF false).1, Except.ok none))
    ∧ train_multiple_configs
        (train_multiple_configs ⟨[], "xgb", true⟩ wFS [wCfg1] wTF).1 wFS [wCfg1] wTF
      = ((train_multiple_configs ⟨[], "xgb", true⟩ wFS [wCfg1] wTF).1, []) :=
  ⟨(claim_C1_idempotence_single_experiment ⟨[], "xgb", true⟩ wFS wTF rfl).1 wCfg1
      (run_training ⟨[], "xgb", true⟩ wFS wCfg1 wTF false).1 wRes (by rfl),
   (claim_C1_idempotence_single_experiment ⟨[], "xgb", true⟩ wFS wTF rfl).2 [wCfg1]
      (by decide)⟩

end DrugDispatch

namespace DrugDispatch

theorem srb_ok_some (st st1 : RegistryState) (fs : FS) (cfg : TrainingConfig)
    (tf : TrainFunc) (r : TrainingResult)
    (h : start_run_block st fs cfg tf = (st1, Except.ok (some r))) :
    ∃ exp tags, st1.runs
      = st.runs ++ [⟨exp, tags, loggedParams cfg, r.metrics.to_dict⟩] := by
  cases hs : compute_training_signature cfg.dict cfg.signature_files fs with
  | error e =>
    have hval : start_run_block st fs cfg tf
        = ({ st with runs := st.runs
              ++ [⟨st.active_experiment, compositeTags cfg, [], []⟩] },
           Except.error e) := by
      unfold start_run_block
      rw [hs]
    rw [hval] at h
    exact absurd (congrArg Prod.snd h) (by simp)
  | ok s =>
    cases htf : tf cfg with
    | error e =>
      have hval : start_run_block st fs cfg tf
          = ({ st with runs := st.runs ++
                [⟨st.active_experiment, compositeTags cfg ++ [("signature", s)],
                  loggedParams cfg, []⟩] },
             Except.error e) := by
        unfold start_run_block
        rw [hs, htf]
      rw [hval] at h
      exact absurd (congrArg Prod.snd h) (by simp)
    | ok result =>
      have hval : start_run_block st fs cfg tf
          = ({ st with runs := st.runs ++
                [⟨st.active_experiment,
                  (compositeTags cfg ++ [("signature", s)]) ++
                    result.model_info.map (fun kv => ("model_" ++ kv.1, kv.2.pyStr)),
                  loggedParams cfg, result.metrics.to_dict⟩] },
             Except.ok (some result)) := by
        unfold start_run_block
        rw [hs, htf]
      rw [hval] at h
      have h2 := congrArg Prod.snd h
      simp only [Prod.snd] at h2
      have hr : result = r := by
        injection h2 with h3
        injection h3
      have h1 := congrArg Prod.fst h
      simp only [Prod.fst] at h1
      subst h1
      subst hr
      exact ⟨_, _, rfl⟩

/-- Claim C9: parameter-logging exclusion. A run_training call that
returns a result appends exactly one run record to the registry, and the
parameters logged on that record are precisely the config field set with
exactly model_script and signature_files removed — every other field,
including extra hyperparameter fields, is logged. -/
theorem claim_C9_param_logging_exclusion (st st1 : RegistryState) (fs : FS)
    (cfg : TrainingConfig) (tf : TrainFunc) (frc : Bool) (r : TrainingResult)
    (h : run_training st fs cfg tf frc = (st1, Except.ok (some r))) :
    st1.runs.dropLast = st.runs ∧
      Option.map RunRecord.params st1.runs.getLast?
        = some (cfg.dict.filter fun kv =>
            !(kv.1 == "model_script") && !(kv.1 == "signature_files")) := by
  have hsrb : ∃ exp tags, st1.runs
      = st.runs ++ [⟨exp, tags, loggedParams cfg, r.metrics.to_dict⟩] := by
    unfold run_training at h
    split at h
    · exact srb_ok_some (set_experiment st cfg.model_type) st1 fs cfg tf r h
    · split at h
      · exact absurd (congrArg Prod.snd h) (by simp)
      · exact absurd (congrArg Prod.snd h) (by simp)
      · exact srb_ok_some (set_experiment st cfg.model_type) st1 fs cfg tf r h
  obtain ⟨exp, tags, htags⟩ := hsrb
  rw [htags]
  constructor
  · exact List.dropLast_concat
  · rw [List.getLast?_concat]
    rfl

end DrugDispatch

namespace DrugDispatch

set_option maxRecDepth 200000 in
theorem claim_C9_witness :
    ((run_training ⟨[], "Default", true⟩ wFS wCfg1 wTF false).1).runs.dropLast = ([] : List RunRecord) ∧
      Option.map RunRecord.params ((run_training ⟨[], "Default", true⟩ wFS wCfg1 wTF false).1).runs.getLast?
        = some (wCfg1.dict.filter fun kv =>
            !(kv.1 == "model_script") && !(kv.1 == "signature_files")) :=
  claim_C9_param_logging_exclusion ⟨[], "Default", true⟩
    (run_training ⟨[], "Default", true⟩ wFS wCfg1 wTF false).1 wFS wCfg1 wTF false wRes (by rfl)

end DrugDispatch
